import Mathlib

/-!
Verification of the Taipei City Dashboard data-engineering utilities.

This file shallowly embeds the two modules the specification's claims are
about:

* `dags/utils/load_stage.py` — `save_dataframe_to_postgresql` and
  `save_geodataframe_to_postgresql`.  The sink is modelled as a trace of
  events (connect / TRUNCATE / INSERT) produced by the function, together
  with a store `String → List α` mapping table names to their rows; errors
  (Python `raise ValueError`) carry the trace of events already executed at
  the moment of the raise.

* `dags/utils/transform_geometry.py` — the geometry-normalisation helpers.
  Geometries are modelled as an inductive type over integer coordinates with
  an optional elevation component; external library calls (shapely
  constructors, pyproj reprojection) are modelled by explicit constructors
  and an abstract coordinate-reprojection parameter.
-/

namespace LoadStage

/-- One observable action of the load functions against the PostgreSQL sink:
opening a connection, `TRUNCATE TABLE t`, or a `to_sql(..., if_exists="append")`
bulk insert of the dataset's rows into table `t`. -/
inductive SinkEvent (α : Type) where
  | connect
  | truncate (table : String)
  | insert (table : String) (rows : List α)
deriving DecidableEq, Repr

/-- The sink: each table name holds a list of rows. -/
def Store (α : Type) : Type := String → List α

/-- Effect of one sink event on the store.  `connect` does not change any
table; `truncate t` empties table `t`; `insert t rows` appends `rows` to
table `t`. -/
def applyEvent {α : Type} (store : Store α) : SinkEvent α → Store α
  | .connect => store
  | .truncate t => fun n => if n = t then [] else store n
  | .insert t rows => fun n => if n = t then store n ++ rows else store n

/-- Effect of a sequence of sink events, first to last. -/
def applyEvents {α : Type} (store : Store α) (evs : List (SinkEvent α)) : Store α :=
  evs.foldl applyEvent store

/-- The in-memory dataset handed to the load functions: whether the Python
object is a `gpd.GeoDataFrame`, its column names, and its rows (opaque). -/
structure DataFrame (α : Type) where
  isGeoDataFrame : Bool
  columns : List String
  rows : List α
deriving DecidableEq, Repr

/-- Result of a load call: `ok` with the executed sink-event trace, or
`error` with the Python exception message and the trace of events already
executed when the exception was raised. -/
inductive LoadResult (α : Type) where
  | ok (events : List (SinkEvent α))
  | error (msg : String) (events : List (SinkEvent α))
deriving DecidableEq, Repr

/-- The sink events executed by a call, whether or not it raised. -/
def LoadResult.events {α : Type} : LoadResult α → List (SinkEvent α)
  | .ok evs => evs
  | .error _ evs => evs

/-- `true` iff the call raised (a `ValueError` in the embedded code: every
`raise` in `load_stage.py` is a `raise ValueError`). -/
def LoadResult.isValueError {α : Type} : LoadResult α → Bool
  | .ok _ => false
  | .error _ _ => true

/-- Embedding of `save_dataframe_to_postgresql` (load_stage.py lines 8-78).
The function checks the data type and the column names, connects, dispatches
on `load_behavior`, and for `current+history` checks only `history_table is
None` (an empty string passes).  `history_table : Option String` models the
Python parameter with default `None`. -/
def save_dataframe_to_postgresql {α : Type} (data : DataFrame α)
    (load_behavior : String) (default_table : String)
    (history_table : Option String := none) : LoadResult α :=
  if data.isGeoDataFrame then
    .error "Data type is gpd.GeoDataFrame, use save_geodataframe_to_postgresql instead." []
  else if data.columns.any (fun c => c = "wkb_geometry" || c = "geometry") then
    .error "Column name contains wkb_geometry or geometry, use save_geodataframe_to_postgresql instead." []
  else if load_behavior = "append" then
    .ok [.connect, .insert default_table data.rows]
  else if load_behavior = "replace" then
    .ok [.connect, .truncate default_table, .insert default_table data.rows]
  else if load_behavior = "current+history" then
    match history_table with
    | none =>
        .error "history_table should be provided when load_behavior is current+history." [.connect]
    | some h =>
        .ok [.connect, .truncate default_table, .insert default_table data.rows,
             .insert h data.rows]
  else
    .error "load_behavior should be one of append, replace, current+history." [.connect]

/-- The geometry-type white list of `save_geodataframe_to_postgresql`
(load_stage.py lines 121-130). -/
def geometry_type_white_list : List String :=
  ["Point", "LineString", "Polygon", "MultiPoint", "MultiLineString",
   "MultiPolygon", "LineStringZ", "MultiLineStringZ"]

/-- Embedding of `save_geodataframe_to_postgresql` (load_stage.py lines
81-190).  The geometry-type white-list check precedes `engine.connect()`;
the `current+history` branch rejects both `None` and the empty string for
`history_table`.  No data-type or column check is performed (the source
deliberately omits it). -/
def save_geodataframe_to_postgresql {α : Type} (gdata : DataFrame α)
    (load_behavior : String) (geometry_type : String) (default_table : String)
    (history_table : Option String := none) : LoadResult α :=
  if geometry_type ∉ geometry_type_white_list then
    .error "geometry_type should be one of the white list." []
  else if load_behavior = "append" then
    .ok [.connect, .insert default_table gdata.rows]
  else if load_behavior = "replace" then
    .ok [.connect, .truncate default_table, .insert default_table gdata.rows]
  else if load_behavior = "current+history" then
    match history_table with
    | none =>
        .error "history_table should be provided when load_behavior is current+history." [.connect]
    | some h =>
        if h = "" then
          .error "history_table should be provided when load_behavior is current+history." [.connect]
        else
          .ok [.connect, .truncate default_table, .insert default_table gdata.rows,
               .insert h gdata.rows]
  else
    .error "load_behavior should be one of append, replace, current+history." [.connect]

/-- A trace touches the sink's tables iff it contains a truncate or insert. -/
def touchesTables {α : Type} (evs : List (SinkEvent α)) : Bool :=
  evs.any fun e => match e with
    | .connect => false
    | .truncate _ => true
    | .insert _ _ => true

end LoadStage

namespace TransformGeometry

/-- A coordinate: x, y, and an optional elevation component (shapely 3D
coordinates). -/
structure Coord where
  x : Int
  y : Int
  z : Option Int
deriving DecidableEq, Repr

/-- Shallow model of the shapely geometry objects the module manipulates.
A polygon is its exterior ring plus its interior rings (holes); `null`
models Python `None`/NaN (the NA case of `pd.isna`); `emptyPoint` models
the empty point produced by `gpd.points_from_xy` on NaN coordinates. -/
inductive Geometry where
  | point (c : Coord)
  | emptyPoint
  | linestring (coords : List Coord)
  | multilinestring (lines : List (List Coord))
  | polygon (exterior : List Coord) (interiors : List (List Coord))
  | multipolygon (polys : List (List Coord × List (List Coord)))
  | null
deriving DecidableEq, Repr

/-- `pd.isna(geo)`: true exactly for the NA value (Python `None` / NaN);
geometry objects, even empty ones, are not NA. -/
def isNa : Geometry → Bool
  | .null => true
  | _ => false

/-- `isinstance(geo, MultiPolygon)`. -/
def isMultiPolygon : Geometry → Bool
  | .multipolygon _ => true
  | _ => false

/-- `isinstance(geo, MultiLineString)`. -/
def isMultiLineString : Geometry → Bool
  | .multilinestring _ => true
  | _ => false

/-- `geo.has_z`: whether the geometry carries an elevation component. -/
def hasZ : Geometry → Bool
  | .point c => c.z.isSome
  | .emptyPoint => false
  | .linestring cs => cs.any fun c => c.z.isSome
  | .multilinestring ls => ls.any fun cs => cs.any fun c => c.z.isSome
  | .polygon ext ints =>
      (ext.any fun c => c.z.isSome) || ints.any fun cs => cs.any fun c => c.z.isSome
  | .multipolygon ps =>
      ps.any fun p =>
        (p.1.any fun c => c.z.isSome) || p.2.any fun cs => cs.any fun c => c.z.isSome
  | .null => false

/-- `xy[:2]` applied to one coordinate tuple: keep x and y, drop z. -/
def dropZ (c : Coord) : Coord :=
  { c with z := none }

/-- Embedding of `convert_3d_polygon_to_2d_polygon` (transform_geometry.py
lines 10-52).  `new_geo` is assigned only inside `if geo.has_z:` and only
for the `Polygon` / `MultiPolygon` branches; on every other path the final
`return new_geo` raises `UnboundLocalError` — modelled as `.error`.  The
reconstruction `Polygon([xy[:2] for xy in geo.exterior.coords])` uses only
the exterior ring, so interior rings are discarded. -/
def convert_3d_polygon_to_2d_polygon (geo : Geometry) : Except String Geometry :=
  if hasZ geo then
    match geo with
    | .polygon ext _ints => .ok (.polygon (ext.map dropZ) [])
    | .multipolygon ps => .ok (.multipolygon (ps.map fun p => (p.1.map dropZ, [])))
    | _ => .error "UnboundLocalError: new_geo referenced before assignment"
  else
    .error "UnboundLocalError: new_geo referenced before assignment"

/-- Embedding of `convert_linestring_to_multilinestring` (transform_geometry.py
lines 55-88).  `MultiLineString([geo])` succeeds only when `geo` is a
LineString; on any other geometry shapely raises — modelled as `.error`. -/
def convert_linestring_to_multilinestring (geo : Geometry) : Except String Geometry :=
  if isMultiLineString geo || isNa geo then
    .ok geo
  else
    match geo with
    | .linestring cs => .ok (.multilinestring [cs])
    | _ => .error "shapely error: MultiLineString of a non-line geometry"

/-- Embedding of `convert_polygon_to_multipolygon` (transform_geometry.py
lines 91-124).  `MultiPolygon([geo])` succeeds only when `geo` is a
Polygon; on any other geometry shapely raises — modelled as `.error`. -/
def convert_polygon_to_multipolygon (geo : Geometry) : Except String Geometry :=
  if isMultiPolygon geo || isNa geo then
    .ok geo
  else
    match geo with
    | .polygon ext ints => .ok (.multipolygon [(ext, ints)])
    | _ => .error "shapely error: MultiPolygon of a non-polygon geometry"

end TransformGeometry

namespace TransformGeometry

/-- One cell of the `x` / `y` input series of
`add_point_wkbgeometry_column_to_df`: a number, a string, or a missing
value (Python `None`/NaN). -/
inductive RawCell where
  | numVal (n : Int)
  | strVal (s : String)
  | missing
deriving DecidableEq, Repr

/-- `pd.to_numeric(cell, errors="coerce")` on one cell: numbers pass
through, numeric strings are parsed, anything else (including the empty
string and missing values) coerces to NaN, modelled as `none`. -/
def to_numeric_coerce : RawCell → Option Int
  | .numVal n => some n
  | .strVal s => s.toInt?
  | .missing => none

/-- `gpd.points_from_xy` on one (x, y) pair: two numbers give a 2D point;
a NaN in either coordinate gives the empty point (shapely represents
`POINT EMPTY` by NaN coordinates, and such a point satisfies
`is_empty`). -/
def points_from_xy_one : Option Int → Option Int → Geometry
  | some a, some b => .point ⟨a, b, none⟩
  | _, _ => .emptyPoint

/-- Apply a coordinate transformation to every coordinate of a geometry;
the NA value and the empty point carry no coordinates and are unchanged.
This is how a pyproj CRS reprojection acts on a geometry. -/
def mapCoords (f : Coord → Coord) : Geometry → Geometry
  | .point c => .point (f c)
  | .emptyPoint => .emptyPoint
  | .linestring cs => .linestring (cs.map f)
  | .multilinestring ls => .multilinestring (ls.map (List.map f))
  | .polygon ext ints => .polygon (ext.map f) (ints.map (List.map f))
  | .multipolygon ps => .multipolygon (ps.map fun p => (p.1.map f, p.2.map (List.map f)))
  | .null => .null

/-- `GeoSeries.to_crs(epsg=target)` on a list of geometries whose current
CRS is `cur`, with the coordinate-level reprojection left abstract as
`proj` (pyproj): reprojecting to the CRS already in force is the identity. -/
def to_crs_geoms (proj : Int → Int → Coord → Coord) (cur target : Int)
    (geoms : List Geometry) : List Geometry :=
  if cur = target then geoms else geoms.map (mapCoords (proj cur target))

/-- `geo.is_empty` for shapely geometries (a geometry with no coordinates).
The NA value has no such attribute; it is mapped to `false` so that the
subsequent attribute access is the failing step, as in Python. -/
def is_empty : Geometry → Bool
  | .point _ => false
  | .emptyPoint => true
  | .linestring cs => cs.isEmpty
  | .multilinestring ls => ls.isEmpty
  | .polygon ext _ => ext.isEmpty
  | .multipolygon ps => ps.isEmpty
  | .null => false

/-- `geo.geom_type` (the `gdf["geometry"].type` accessor): the name of the
geometry family; the empty point is still of type `Point`. -/
def geom_type : Geometry → String
  | .point _ => "Point"
  | .emptyPoint => "Point"
  | .linestring _ => "LineString"
  | .multilinestring _ => "MultiLineString"
  | .polygon _ _ => "Polygon"
  | .multipolygon _ => "MultiPolygon"
  | .null => "None"

/-- The lambda `lambda ele: ele.x if not ele.is_empty else nan` (and its
`ele.y` twin), with the coordinate selector abstracted: an empty geometry
gives NaN (`none`); a point gives its coordinate; any other geometry has
no `.x` attribute and raises `AttributeError`. -/
def xy_lambda (coordOf : Coord → Int) (ele : Geometry) : Except String (Option Int) :=
  if is_empty ele then .ok none
  else
    match ele with
    | .point c => .ok (some (coordOf c))
    | _ => .error "AttributeError"

/-- `geoalchemy2.WKTElement(geo.wkt, srid)`: the WKT text is represented by
the geometry it prints, together with the spatial reference identifier. -/
structure WKTElement where
  wkt : Geometry
  srid : Int
deriving DecidableEq, Repr

/-- The lambda `lambda x: WKTElement(x.wkt, srid=to_crs) if x is not None
else None` used to fill the `wkb_geometry` column. -/
def wkb_lambda (srid : Int) : Geometry → Option WKTElement
  | .null => none
  | g => some ⟨g, srid⟩

/-- Output of `add_point_wkbgeometry_column_to_df`: the original data rows,
the constructed `geometry` column, the optional `lng`/`lat` columns (NaN as
`none`), and the `wkb_geometry` column. -/
structure PointGdf (β : Type) where
  data : List β
  geometry : List Geometry
  lng : Option (List (Option Int))
  lat : Option (List (Option Int))
  wkb_geometry : List (Option WKTElement)
deriving Repr

/-- The `# add column` block of `add_point_wkbgeometry_column_to_df`
(transform_geometry.py lines 196-205): read the first row's geometry type
(`.type.iloc[0]`, an `IndexError` on an empty frame) and, when it is
`Point`, build the `lng` and `lat` columns by mapping the coordinate
lambdas over the geometry column (`lng` first, as in the source). -/
def lnglat_columns (geometry : List Geometry) :
    Except String (Option (List (Option Int)) × Option (List (Option Int))) :=
  match geometry with
  | [] => .error "IndexError: index 0 is out of bounds"
  | g0 :: _ =>
      if geom_type g0 = "Point" then
        match geometry.mapM (xy_lambda Coord.x), geometry.mapM (xy_lambda Coord.y) with
        | .ok lng, .ok lat => .ok (some lng, some lat)
        | .error e, _ => .error e
        | .ok _, .error e => .error e
      else .ok (none, none)

/-- Embedding of `add_point_wkbgeometry_column_to_df` (transform_geometry.py
lines 127-210): coerce `x` and `y` to numeric, build one point per row,
reproject from `from_crs` to `to_crs` (a same-CRS round trip when the two
agree), then add `lng`/`lat` when requested via `lnglat_columns`, and
finally the `wkb_geometry` column.  The coordinate reprojection is left
abstract as `proj`. -/
def add_point_wkbgeometry_column_to_df {β : Type}
    (proj : Int → Int → Coord → Coord) (data : List β) (x y : List RawCell)
    (from_crs : Int) (to_crs : Int := 4326) (is_add_xy_columns : Bool := true) :
    Except String (PointGdf β) :=
  let xn := x.map to_numeric_coerce
  let yn := y.map to_numeric_coerce
  let geometry0 := List.zipWith points_from_xy_one xn yn
  let geometry :=
    if from_crs = to_crs then
      to_crs_geoms proj to_crs to_crs (to_crs_geoms proj from_crs from_crs geometry0)
    else
      to_crs_geoms proj from_crs to_crs geometry0
  match (if is_add_xy_columns then lnglat_columns geometry
         else .ok (none, none)) with
  | .error e => .error e
  | .ok lnglat =>
      .ok { data := data, geometry := geometry, lng := lnglat.1, lat := lnglat.2,
            wkb_geometry := geometry.map (wkb_lambda to_crs) }

/-- A `gpd.GeoDataFrame` as `convert_geometry_to_wkbgeometry` sees it: the
declared CRS metadata (an EPSG code, or none), the `geometry` column, and
the `wkb_geometry` column when present. -/
structure GeoDataFrame where
  crs : Option Int
  geometry : List Geometry
  wkb_geometry : Option (List (Option WKTElement))
deriving DecidableEq, Repr

/-- `gdf.to_crs(epsg=target)`: fails on a frame with no CRS; otherwise
returns a new frame in `target`, reprojecting coordinates through `proj`
unless the declared CRS already equals the target. -/
def GeoDataFrame.to_crs (gdf : GeoDataFrame) (proj : Int → Int → Coord → Coord)
    (target : Int) : Except String GeoDataFrame :=
  match gdf.crs with
  | none => .error "Cannot transform naive geometries: CRS is not set"
  | some cur =>
      if cur = target then
        .ok { gdf with crs := some target }
      else
        .ok { gdf with
                crs := some target
                geometry := gdf.geometry.map (mapCoords (proj cur target)) }

/-- Embedding of `convert_geometry_to_wkbgeometry` (transform_geometry.py
lines 213-264).  The first statement, `gdf.crs = f"EPSG:{from_crs}"`,
mutates the caller's object in place; the subsequent `gdf = gdf.to_crs(...)`
rebind the local name to new frames, so the caller's object receives only
the CRS overwrite.  The result is the pair (caller's object after the call,
returned frame). -/
def convert_geometry_to_wkbgeometry (proj : Int → Int → Coord → Coord)
    (gdf : GeoDataFrame) (from_crs : Int) (to_crs : Int := 4326) :
    Except String (GeoDataFrame × GeoDataFrame) := do
  let caller := { gdf with crs := some from_crs }
  let gdf1 ←
    if from_crs = to_crs then do
      let t1 ← caller.to_crs proj from_crs
      t1.to_crs proj to_crs
    else
      caller.to_crs proj to_crs
  let result := { gdf1 with wkb_geometry := some (gdf1.geometry.map (wkb_lambda to_crs)) }
  pure (caller, result)

end TransformGeometry

namespace LoadStage

/-- Claim C3: for every dataset and every prior content of `default_table`,
a successful `replace` run of `save_dataframe_to_postgresql` or
`save_geodataframe_to_postgresql` leaves `default_table` containing exactly
the dataset's rows (truncate, then insert) and leaves every other table —
in particular any history table — untouched. -/
theorem replace_overwrites_default_and_touches_nothing_else {α : Type}
    (data : DataFrame α) (d : String) (ht : Option String) (store : Store α)
    (gt : String)
    (hgeo : data.isGeoDataFrame = false)
    (hcols : data.columns.any (fun c => c = "wkb_geometry" || c = "geometry") = false)
    (hgt : gt ∈ geometry_type_white_list) :
    (∃ evs, save_dataframe_to_postgresql data "replace" d ht = .ok evs ∧
      applyEvents store evs d = data.rows ∧
      ∀ t, t ≠ d → applyEvents store evs t = store t) ∧
    (∃ evs, save_geodataframe_to_postgresql data "replace" gt d ht = .ok evs ∧
      applyEvents store evs d = data.rows ∧
      ∀ t, t ≠ d → applyEvents store evs t = store t) := by
  constructor
  · refine ⟨[.connect, .truncate d, .insert d data.rows], ?_, ?_, ?_⟩
    · simp [save_dataframe_to_postgresql, hgeo, hcols]
    · simp [applyEvents, applyEvent]
    · intro t htd
      simp [applyEvents, applyEvent, htd]
  · refine ⟨[.connect, .truncate d, .insert d data.rows], ?_, ?_, ?_⟩
    · simp [save_geodataframe_to_postgresql, hgt]
    · simp [applyEvents, applyEvent]
    · intro t htd
      simp [applyEvents, applyEvent, htd]

/-- Witness for C3 at concrete input: a 2-row dataset replacing a 3-row
default table. -/
theorem replace_overwrites_default_witness :
    ((⟨false, ["a"], [10, 11]⟩ : DataFrame Nat).isGeoDataFrame = false) ∧
    (((⟨false, ["a"], [10, 11]⟩ : DataFrame Nat)).columns.any
        (fun c => c = "wkb_geometry" || c = "geometry") = false) ∧
    ("Point" ∈ geometry_type_white_list) ∧
    ((∃ evs, save_dataframe_to_postgresql (⟨false, ["a"], [10, 11]⟩ : DataFrame Nat)
          "replace" "tbl" none = .ok evs ∧
        applyEvents (fun _ => [1, 2, 3]) evs "tbl" = [10, 11] ∧
        ∀ t, t ≠ "tbl" → applyEvents (fun _ => [1, 2, 3]) evs t = [1, 2, 3]) ∧
      (∃ evs, save_geodataframe_to_postgresql (⟨false, ["a"], [10, 11]⟩ : DataFrame Nat)
          "replace" "Point" "tbl" none = .ok evs ∧
        applyEvents (fun _ => [1, 2, 3]) evs "tbl" = [10, 11] ∧
        ∀ t, t ≠ "tbl" → applyEvents (fun _ => [1, 2, 3]) evs t = [1, 2, 3])) := by
  refine ⟨rfl, by decide, by decide, ?_⟩
  exact replace_overwrites_default_and_touches_nothing_else
    (⟨false, ["a"], [10, 11]⟩ : DataFrame Nat) "tbl" none (fun _ => [1, 2, 3]) "Point"
    rfl (by decide) (by decide)

end LoadStage

namespace LoadStage

/-- Claim C7: a call to `save_geodataframe_to_postgresql` with a
`geometry_type` outside the white list raises a `ValueError` with an empty
sink-event trace — before any connection to or write against the sink — so
every table (in particular default and history) is unchanged. -/
theorem invalid_geometry_type_rejected_before_connect {α : Type}
    (gdata : DataFrame α) (lb gt d : String) (ht : Option String) (store : Store α)
    (hgt : gt ∉ geometry_type_white_list) :
    (save_geodataframe_to_postgresql gdata lb gt d ht).isValueError = true ∧
    (save_geodataframe_to_postgresql gdata lb gt d ht).events = [] ∧
    ∀ t, applyEvents store (save_geodataframe_to_postgresql gdata lb gt d ht).events t
      = store t := by
  simp only [save_geodataframe_to_postgresql, hgt, not_false_eq_true, if_true]
  exact ⟨rfl, rfl, fun t => rfl⟩

/-- Witness for C7 at the spec's concrete input `geometry_type = "Circle"`. -/
theorem invalid_geometry_type_rejected_witness :
    ("Circle" ∉ geometry_type_white_list) ∧
    ((save_geodataframe_to_postgresql (⟨true, ["wkb_geometry"], [7]⟩ : DataFrame Nat)
        "replace" "Circle" "tbl" (some "hist")).isValueError = true ∧
      (save_geodataframe_to_postgresql (⟨true, ["wkb_geometry"], [7]⟩ : DataFrame Nat)
        "replace" "Circle" "tbl" (some "hist")).events = [] ∧
      ∀ t, applyEvents (fun _ => [1]) (save_geodataframe_to_postgresql
          (⟨true, ["wkb_geometry"], [7]⟩ : DataFrame Nat)
          "replace" "Circle" "tbl" (some "hist")).events t = (fun _ => [1] : Store Nat) t) :=
  ⟨by decide,
   invalid_geometry_type_rejected_before_connect
     (⟨true, ["wkb_geometry"], [7]⟩ : DataFrame Nat) "replace" "Circle" "tbl"
     (some "hist") (fun _ => [1]) (by decide)⟩

/-- Claim C8: any `load_behavior` outside {append, replace, current+history}
makes both load functions raise a `ValueError`, and the events they executed
up to the raise mutate no table. -/
theorem invalid_load_behavior_rejected_without_mutation {α : Type}
    (data gdata : DataFrame α) (lb gt d : String) (ht : Option String) (store : Store α)
    (h1 : lb ≠ "append") (h2 : lb ≠ "replace") (h3 : lb ≠ "current+history") :
    ((save_dataframe_to_postgresql data lb d ht).isValueError = true ∧
      ∀ t, applyEvents store (save_dataframe_to_postgresql data lb d ht).events t
        = store t) ∧
    ((save_geodataframe_to_postgresql gdata lb gt d ht).isValueError = true ∧
      ∀ t, applyEvents store (save_geodataframe_to_postgresql gdata lb gt d ht).events t
        = store t) := by
  constructor
  · unfold save_dataframe_to_postgresql
    rcases hb : data.isGeoDataFrame with _ | _
    · rcases hc : data.columns.any (fun c => c = "wkb_geometry" || c = "geometry") with _ | _
      · simp [h1, h2, h3, LoadResult.isValueError, LoadResult.events,
          applyEvents, applyEvent]
      · simp [LoadResult.isValueError, LoadResult.events, applyEvents]
    · simp [LoadResult.isValueError, LoadResult.events, applyEvents]
  · unfold save_geodataframe_to_postgresql
    by_cases hg : gt ∈ geometry_type_white_list
    · simp [hg, h1, h2, h3, LoadResult.isValueError, LoadResult.events,
        applyEvents, applyEvent]
    · simp [hg, LoadResult.isValueError, LoadResult.events, applyEvents]

/-- Witness for C8 at the concrete invalid mode `"upsert"`. -/
theorem invalid_load_behavior_rejected_witness :
    (("upsert" : String) ≠ "append") ∧ (("upsert" : String) ≠ "replace") ∧
    (("upsert" : String) ≠ "current+history") ∧
    (((save_dataframe_to_postgresql (⟨false, ["a"], [5]⟩ : DataFrame Nat)
          "upsert" "tbl" none).isValueError = true ∧
        ∀ t, applyEvents (fun _ => [9]) (save_dataframe_to_postgresql
            (⟨false, ["a"], [5]⟩ : DataFrame Nat) "upsert" "tbl" none).events t
          = (fun _ => [9] : Store Nat) t) ∧
      ((save_geodataframe_to_postgresql (⟨false, ["a"], [5]⟩ : DataFrame Nat)
          "upsert" "Point" "tbl" none).isValueError = true ∧
        ∀ t, applyEvents (fun _ => [9]) (save_geodataframe_to_postgresql
            (⟨false, ["a"], [5]⟩ : DataFrame Nat) "upsert" "Point" "tbl" none).events t
          = (fun _ => [9] : Store Nat) t)) :=
  ⟨by decide, by decide, by decide,
   invalid_load_behavior_rejected_without_mutation
     (⟨false, ["a"], [5]⟩ : DataFrame Nat) (⟨false, ["a"], [5]⟩ : DataFrame Nat)
     "upsert" "Point" "tbl" none (fun _ => [9]) (by decide) (by decide) (by decide)⟩

/-- Claim C9: `save_dataframe_to_postgresql` applied to a `GeoDataFrame`, or
to data whose columns include `wkb_geometry` or `geometry`, raises a
`ValueError` with an empty sink-event trace — before any connection — for
every `load_behavior`, leaving every table unchanged. -/
theorem dataframe_path_rejects_geometry_before_connect {α : Type}
    (data : DataFrame α) (lb d : String) (ht : Option String) (store : Store α)
    (hg : data.isGeoDataFrame = true ∨
      data.columns.any (fun c => c = "wkb_geometry" || c = "geometry") = true) :
    (save_dataframe_to_postgresql data lb d ht).isValueError = true ∧
    (save_dataframe_to_postgresql data lb d ht).events = [] ∧
    ∀ t, applyEvents store (save_dataframe_to_postgresql data lb d ht).events t
      = store t := by
  unfold save_dataframe_to_postgresql
  rcases hg with hg | hg
  · simp [hg, LoadResult.isValueError, LoadResult.events, applyEvents]
  · rcases hb : data.isGeoDataFrame with _ | _
    · simp [hg, LoadResult.isValueError, LoadResult.events, applyEvents]
    · simp [LoadResult.isValueError, LoadResult.events, applyEvents]

/-- Witness for C9: a geometry-bearing column set on the non-geometry path. -/
theorem dataframe_path_rejects_geometry_witness :
    ((⟨false, ["id", "geometry"], [5]⟩ : DataFrame Nat).isGeoDataFrame = true ∨
      (⟨false, ["id", "geometry"], [5]⟩ : DataFrame Nat).columns.any
        (fun c => c = "wkb_geometry" || c = "geometry") = true) ∧
    ((save_dataframe_to_postgresql (⟨false, ["id", "geometry"], [5]⟩ : DataFrame Nat)
        "append" "tbl" none).isValueError = true ∧
      (save_dataframe_to_postgresql (⟨false, ["id", "geometry"], [5]⟩ : DataFrame Nat)
        "append" "tbl" none).events = [] ∧
      ∀ t, applyEvents (fun _ => [3]) (save_dataframe_to_postgresql
          (⟨false, ["id", "geometry"], [5]⟩ : DataFrame Nat) "append" "tbl" none).events t
        = (fun _ => [3] : Store Nat) t) :=
  ⟨Or.inr (by decide),
   dataframe_path_rejects_geometry_before_connect
     (⟨false, ["id", "geometry"], [5]⟩ : DataFrame Nat) "append" "tbl" none
     (fun _ => [3]) (Or.inr (by decide))⟩

end LoadStage

namespace LoadStage

/-- Claim C2: a successful `current+history` run of either load function
with a valid, distinct history table leaves `default_table` containing
exactly the dataset's rows, leaves `history_table` containing its prior
rows followed by the dataset's rows, leaves every other table unchanged,
and no mode's event trace ever truncates the history table. -/
theorem current_history_replaces_default_appends_history {α : Type}
    (data : DataFrame α) (d h gt : String) (store : Store α)
    (hne : d ≠ h)
    (hgeo : data.isGeoDataFrame = false)
    (hcols : data.columns.any (fun c => c = "wkb_geometry" || c = "geometry") = false)
    (hgt : gt ∈ geometry_type_white_list)
    (hh : h ≠ "") :
    (∃ evs, save_dataframe_to_postgresql data "current+history" d (some h) = .ok evs ∧
      applyEvents store evs d = data.rows ∧
      applyEvents store evs h = store h ++ data.rows ∧
      ∀ t, t ≠ d → t ≠ h → applyEvents store evs t = store t) ∧
    (∃ evs, save_geodataframe_to_postgresql data "current+history" gt d (some h)
        = .ok evs ∧
      applyEvents store evs d = data.rows ∧
      applyEvents store evs h = store h ++ data.rows ∧
      ∀ t, t ≠ d → t ≠ h → applyEvents store evs t = store t) ∧
    (∀ lb, SinkEvent.truncate h ∉
        (save_dataframe_to_postgresql data lb d (some h)).events ∧
      SinkEvent.truncate h ∉
        (save_geodataframe_to_postgresql data lb gt d (some h)).events) := by
  have hne' : h ≠ d := fun hcontra => hne hcontra.symm
  refine ⟨?_, ?_, ?_⟩
  · refine ⟨[.connect, .truncate d, .insert d data.rows, .insert h data.rows],
      ?_, ?_, ?_, ?_⟩
    · simp [save_dataframe_to_postgresql, hgeo, hcols]
    · simp [applyEvents, applyEvent, hne, hne']
    · simp [applyEvents, applyEvent, hne, hne']
    · intro t htd hth
      simp [applyEvents, applyEvent, htd, hth]
  · refine ⟨[.connect, .truncate d, .insert d data.rows, .insert h data.rows],
      ?_, ?_, ?_, ?_⟩
    · simp [save_geodataframe_to_postgresql, hgt, hh]
    · simp [applyEvents, applyEvent, hne, hne']
    · simp [applyEvents, applyEvent, hne, hne']
    · intro t htd hth
      simp [applyEvents, applyEvent, htd, hth]
  · intro lb
    constructor
    · unfold save_dataframe_to_postgresql
      rcases hb : data.isGeoDataFrame with _ | _
      · rcases hc : data.columns.any (fun c => c = "wkb_geometry" || c = "geometry")
          with _ | _
        · by_cases l1 : lb = "append"
          · simp [l1, LoadResult.events, hne']
          · by_cases l2 : lb = "replace"
            · simp [l1, l2, LoadResult.events, hne']
            · by_cases l3 : lb = "current+history"
              · simp [l1, l2, l3, LoadResult.events, hne']
              · simp [l1, l2, l3, LoadResult.events]
        · simp [LoadResult.events]
      · simp [LoadResult.events]
    · unfold save_geodataframe_to_postgresql
      by_cases hg : gt ∈ geometry_type_white_list
      · by_cases l1 : lb = "append"
        · simp [hg, l1, LoadResult.events, hne']
        · by_cases l2 : lb = "replace"
          · simp [hg, l1, l2, LoadResult.events, hne']
          · by_cases l3 : lb = "current+history"
            · simp [hg, l1, l2, l3, LoadResult.events, hne', hh]
            · simp [hg, l1, l2, l3, LoadResult.events]
      · simp [hg, LoadResult.events]

/-- Witness for C2 at the spec's scenario: a 2-row dataset, a 1-row default
table and a 2-row history table. -/
theorem current_history_witness :
    (("cur" : String) ≠ "hist") ∧
    ((⟨false, ["a"], [10, 11]⟩ : DataFrame Nat).isGeoDataFrame = false) ∧
    ((⟨false, ["a"], [10, 11]⟩ : DataFrame Nat).columns.any
      (fun c => c = "wkb_geometry" || c = "geometry") = false) ∧
    ("Polygon" ∈ geometry_type_white_list) ∧ (("hist" : String) ≠ "") ∧
    (∃ evs, save_dataframe_to_postgresql (⟨false, ["a"], [10, 11]⟩ : DataFrame Nat)
        "current+history" "cur" (some "hist") = .ok evs ∧
      applyEvents (fun n => if n = "hist" then [1, 2] else [9]) evs "cur" = [10, 11] ∧
      applyEvents (fun n => if n = "hist" then [1, 2] else [9]) evs "hist"
        = (fun n => if n = "hist" then [1, 2] else [9] : Store Nat) "hist" ++ [10, 11] ∧
      ∀ t, t ≠ "cur" → t ≠ "hist" →
        applyEvents (fun n => if n = "hist" then [1, 2] else [9]) evs t
          = (fun n => if n = "hist" then [1, 2] else [9] : Store Nat) t) := by
  refine ⟨by decide, rfl, by decide, by decide, by decide, ?_⟩
  exact (current_history_replaces_default_appends_history
    (⟨false, ["a"], [10, 11]⟩ : DataFrame Nat) "cur" "hist" "Polygon"
    (fun n => if n = "hist" then [1, 2] else [9])
    (by decide) rfl (by decide) (by decide) (by decide)).1

end LoadStage

namespace LoadStage

/-- Counterexample to claim C1 as stated: calling
`save_dataframe_to_postgresql` with `load_behavior = "current+history"` and
`history_table = ""` does not raise a `ValueError`; it proceeds to truncate
`default_table` and insert into it (and into the table named `""`), so
`default_table` is changed.  (Only `history_table is None` is checked in
that function; the empty-string guard exists only in
`save_geodataframe_to_postgresql`.) -/
theorem save_dataframe_empty_history_not_rejected :
    (save_dataframe_to_postgresql (⟨false, ["a"], [10]⟩ : DataFrame Nat)
        "current+history" "tbl" (some "")).isValueError = false ∧
    (save_dataframe_to_postgresql (⟨false, ["a"], [10]⟩ : DataFrame Nat)
        "current+history" "tbl" (some ""))
      = .ok [.connect, .truncate "tbl", .insert "tbl" [10], .insert "" [10]] ∧
    applyEvents (fun _ => [1, 2]) (save_dataframe_to_postgresql
        (⟨false, ["a"], [10]⟩ : DataFrame Nat)
        "current+history" "tbl" (some "")).events "tbl" = [10] := by
  refine ⟨by decide, by decide, by decide⟩

/-- Claim C1 amended: with `load_behavior = "current+history"`, the
geometry-aware function raises a `ValueError` when `history_table` is `None`
or the empty string, and the non-geometry function raises a `ValueError`
when `history_table` is `None`; in each of these cases the trace holds no
truncate or insert, so every table is unchanged.  (The non-geometry
function does not reject the empty string — see the counterexample.) -/
theorem history_table_missing_rejected_before_sink_write {α : Type}
    (data gdata : DataFrame α) (d gt : String) (store : Store α)
    (ht : Option String) (hht : ht = none ∨ ht = some "") :
    ((save_geodataframe_to_postgresql gdata "current+history" gt d ht).isValueError
        = true ∧
      touchesTables (save_geodataframe_to_postgresql gdata "current+history" gt d
        ht).events = false ∧
      ∀ t, applyEvents store
        (save_geodataframe_to_postgresql gdata "current+history" gt d ht).events t
        = store t) ∧
    ((save_dataframe_to_postgresql data "current+history" d none).isValueError
        = true ∧
      touchesTables (save_dataframe_to_postgresql data "current+history" d
        none).events = false ∧
      ∀ t, applyEvents store
        (save_dataframe_to_postgresql data "current+history" d none).events t
        = store t) := by
  constructor
  · unfold save_geodataframe_to_postgresql
    by_cases hg : gt ∈ geometry_type_white_list
    · rcases hht with hht | hht <;> subst hht <;>
        simp [hg, LoadResult.isValueError, LoadResult.events, touchesTables,
          applyEvents, applyEvent]
    · simp [hg, LoadResult.isValueError, LoadResult.events, touchesTables, applyEvents]
  · unfold save_dataframe_to_postgresql
    rcases hb : data.isGeoDataFrame with _ | _
    · rcases hc : data.columns.any (fun c => c = "wkb_geometry" || c = "geometry")
        with _ | _
      · simp [LoadResult.isValueError, LoadResult.events, touchesTables,
          applyEvents, applyEvent]
      · simp [LoadResult.isValueError, LoadResult.events, touchesTables, applyEvents]
    · simp [LoadResult.isValueError, LoadResult.events, touchesTables, applyEvents]

/-- Witness for the amended C1 at a concrete input (`history_table = ""` on
the geometry path, `None` on the non-geometry path). -/
theorem history_table_missing_rejected_witness :
    ((some "" : Option String) = none ∨ (some "" : Option String) = some "") ∧
    (((save_geodataframe_to_postgresql (⟨true, ["wkb_geometry"], [4]⟩ : DataFrame Nat)
          "current+history" "Point" "tbl" (some "")).isValueError = true ∧
        touchesTables (save_geodataframe_to_postgresql
          (⟨true, ["wkb_geometry"], [4]⟩ : DataFrame Nat)
          "current+history" "Point" "tbl" (some "")).events = false ∧
        ∀ t, applyEvents (fun _ => [6]) (save_geodataframe_to_postgresql
            (⟨true, ["wkb_geometry"], [4]⟩ : DataFrame Nat)
            "current+history" "Point" "tbl" (some "")).events t
          = (fun _ => [6] : Store Nat) t) ∧
      ((save_dataframe_to_postgresql (⟨true, ["wkb_geometry"], [4]⟩ : DataFrame Nat)
          "current+history" "tbl" none).isValueError = true ∧
        touchesTables (save_dataframe_to_postgresql
          (⟨true, ["wkb_geometry"], [4]⟩ : DataFrame Nat)
          "current+history" "tbl" none).events = false ∧
        ∀ t, applyEvents (fun _ => [6]) (save_dataframe_to_postgresql
            (⟨true, ["wkb_geometry"], [4]⟩ : DataFrame Nat)
            "current+history" "tbl" none).events t
          = (fun _ => [6] : Store Nat) t)) :=
  ⟨Or.inr rfl,
   history_table_missing_rejected_before_sink_write
     (⟨true, ["wkb_geometry"], [4]⟩ : DataFrame Nat)
     (⟨true, ["wkb_geometry"], [4]⟩ : DataFrame Nat) "tbl" "Point"
     (fun _ => [6]) (some "") (Or.inr rfl)⟩

end LoadStage

namespace TransformGeometry

/-- Claim C4: `convert_polygon_to_multipolygon` wraps every Polygon into a
one-element MultiPolygon and passes MultiPolygon and null inputs through
unchanged (hence applying it twice equals applying it once, stated through
`Except.bind` over all inputs); symmetrically for
`convert_linestring_to_multilinestring`. -/
theorem polygon_linestring_multi_normalization :
    (∀ ext ints, convert_polygon_to_multipolygon (.polygon ext ints)
        = .ok (.multipolygon [(ext, ints)])) ∧
    (∀ ps, convert_polygon_to_multipolygon (.multipolygon ps)
        = .ok (.multipolygon ps)) ∧
    (convert_polygon_to_multipolygon .null = .ok .null) ∧
    (∀ g, (convert_polygon_to_multipolygon g).bind convert_polygon_to_multipolygon
        = convert_polygon_to_multipolygon g) ∧
    (∀ cs, convert_linestring_to_multilinestring (.linestring cs)
        = .ok (.multilinestring [cs])) ∧
    (∀ ls, convert_linestring_to_multilinestring (.multilinestring ls)
        = .ok (.multilinestring ls)) ∧
    (convert_linestring_to_multilinestring .null = .ok .null) ∧
    (∀ g, (convert_linestring_to_multilinestring g).bind
        convert_linestring_to_multilinestring
        = convert_linestring_to_multilinestring g) := by
  refine ⟨fun ext ints => rfl, fun ps => rfl, rfl, ?_, fun cs => rfl,
    fun ls => rfl, rfl, ?_⟩
  · intro g
    cases g <;>
      simp [convert_polygon_to_multipolygon, isMultiPolygon, isNa, Except.bind]
  · intro g
    cases g <;>
      simp [convert_linestring_to_multilinestring, isMultiLineString, isNa, Except.bind]

/-- Claim C5 evaluated at the code's failing inputs: on an already-2D
Polygon, `convert_3d_polygon_to_2d_polygon` raises (`new_geo` is never
assigned when `geo.has_z` is false) instead of returning the input
unchanged; and on a 3D Polygon with an interior ring, the interior ring is
discarded (the rebuild uses only `geo.exterior`), so the output's planar
coordinates are not those of the input. -/
theorem convert_3d_polygon_raises_on_2d_input :
    (convert_3d_polygon_to_2d_polygon
        (.polygon [⟨0, 0, none⟩, ⟨1, 0, none⟩, ⟨1, 1, none⟩, ⟨0, 0, none⟩] [])
      = .error "UnboundLocalError: new_geo referenced before assignment") ∧
    (convert_3d_polygon_to_2d_polygon
        (.polygon [⟨0, 0, some 5⟩, ⟨10, 0, some 5⟩, ⟨10, 10, some 5⟩, ⟨0, 0, some 5⟩]
          [[⟨1, 1, some 5⟩, ⟨2, 1, some 5⟩, ⟨2, 2, some 5⟩, ⟨1, 1, some 5⟩]])
      = .ok (.polygon [⟨0, 0, none⟩, ⟨10, 0, none⟩, ⟨10, 10, none⟩, ⟨0, 0, none⟩] [])) := by
  exact ⟨rfl, rfl⟩

/-- Claim C10: `convert_geometry_to_wkbgeometry` succeeds on every frame,
overwrites the caller's CRS metadata in place with `EPSG:from_crs` (the
caller's object keeps its geometry and `wkb_geometry` but has its CRS
replaced) , its whole behavior is independent of the CRS the frame
previously declared, and the returned frame — a distinct value from the
caller's mutated object — carries the geometries reprojected from
`from_crs` and a fresh `wkb_geometry` column. -/
theorem convert_geometry_overwrites_caller_crs
    (proj : Int → Int → Coord → Coord) (gdf : GeoDataFrame) (fc tc : Int) :
    ∃ caller result,
      convert_geometry_to_wkbgeometry proj gdf fc tc = .ok (caller, result) ∧
      caller.crs = some fc ∧
      caller.geometry = gdf.geometry ∧
      caller.wkb_geometry = gdf.wkb_geometry ∧
      (∀ crs0, convert_geometry_to_wkbgeometry proj { gdf with crs := crs0 } fc tc
        = convert_geometry_to_wkbgeometry proj gdf fc tc) ∧
      result.crs = some tc ∧
      result.geometry =
        (if fc = tc then gdf.geometry else gdf.geometry.map (mapCoords (proj fc tc))) ∧
      result.wkb_geometry = some (result.geometry.map (wkb_lambda tc)) := by
  by_cases h : fc = tc
  · subst h
    refine ⟨⟨some fc, gdf.geometry, gdf.wkb_geometry⟩,
      ⟨some fc, gdf.geometry, some (gdf.geometry.map (wkb_lambda fc))⟩,
      ?_, rfl, rfl, rfl, fun crs0 => rfl, rfl, by simp, rfl⟩
    simp [convert_geometry_to_wkbgeometry, GeoDataFrame.to_crs, Except.bind,
      Except.map, bind, Functor.map, pure, Except.pure]
  · refine ⟨⟨some fc, gdf.geometry, gdf.wkb_geometry⟩,
      ⟨some tc, gdf.geometry.map (mapCoords (proj fc tc)),
        some ((gdf.geometry.map (mapCoords (proj fc tc))).map (wkb_lambda tc))⟩,
      ?_, rfl, rfl, rfl, fun crs0 => rfl, rfl, by simp [h], rfl⟩
    simp [convert_geometry_to_wkbgeometry, GeoDataFrame.to_crs, h, Except.bind,
      Except.map, bind, Functor.map, pure, Except.pure]

end TransformGeometry

namespace TransformGeometry

/-- The geometries `points_from_xy` can produce: points and the empty
point. -/
def isPointGeom : Geometry → Bool
  | .point _ => true
  | .emptyPoint => true
  | _ => false

/-- Every output of `points_from_xy_one` is a point or the empty point. -/
theorem points_from_xy_one_isPoint (a b : Option Int) :
    isPointGeom (points_from_xy_one a b) = true := by
  cases a <;> cases b <;> rfl

/-- Coordinate transformations preserve the point-geometry family. -/
theorem mapCoords_isPoint (f : Coord → Coord) (g : Geometry)
    (h : isPointGeom g = true) : isPointGeom (mapCoords f g) = true := by
  cases g <;> simp_all [isPointGeom, mapCoords]

/-- A point-family geometry has geometry type `Point` (the empty point
included). -/
theorem geom_type_of_isPoint (g : Geometry) (h : isPointGeom g = true) :
    geom_type g = "Point" := by
  cases g <;> simp_all [isPointGeom, geom_type]

/-- The coordinate lambda never raises on point-family geometries. -/
theorem xy_lambda_ok (coordOf : Coord → Int) (g : Geometry)
    (h : isPointGeom g = true) : ∃ v, xy_lambda coordOf g = .ok v := by
  cases g <;> simp_all [isPointGeom, xy_lambda, is_empty]

/-- Mapping the coordinate lambda over a list of point-family geometries
never raises. -/
theorem mapM_xy_lambda_ok (coordOf : Coord → Int) (l : List Geometry)
    (h : ∀ g ∈ l, isPointGeom g = true) :
    ∃ v, l.mapM (xy_lambda coordOf) = .ok v := by
  induction l with
  | nil => exact ⟨[], rfl⟩
  | cons g gs ih =>
      obtain ⟨v, hv⟩ := xy_lambda_ok coordOf g (h g (List.mem_cons_self g gs))
      obtain ⟨vs, hvs⟩ := ih (fun g' hg' => h g' (List.mem_cons_of_mem g hg'))
      refine ⟨v :: vs, ?_⟩
      simp only [List.mapM_cons, hv, hvs]
      rfl

/-- All entries of the constructed geometry column are point-family. -/
theorem zipWith_points_isPoint (xs ys : List (Option Int)) :
    ∀ g ∈ List.zipWith points_from_xy_one xs ys, isPointGeom g = true := by
  induction xs generalizing ys with
  | nil => intro g hg; simp at hg
  | cons a as ih =>
      cases ys with
      | nil => intro g hg; simp at hg
      | cons b bs =>
          intro g hg
          rcases List.mem_cons.mp hg with hg | hg
          · subst hg; exact points_from_xy_one_isPoint a b
          · exact ih bs g hg

/-- On a nonempty list of point-family geometries, the `# add column` block
succeeds and produces both columns. -/
theorem lnglat_columns_ok (G : List Geometry)
    (hAll : ∀ g ∈ G, isPointGeom g = true) (hne : G ≠ []) :
    ∃ lng lat, lnglat_columns G = .ok (some lng, some lat) := by
  obtain ⟨lng, hlng⟩ := mapM_xy_lambda_ok Coord.x G hAll
  obtain ⟨lat, hlat⟩ := mapM_xy_lambda_ok Coord.y G hAll
  refine ⟨lng, lat, ?_⟩
  cases G with
  | nil => exact absurd rfl hne
  | cons g0 rest =>
      have hgt : geom_type g0 = "Point" :=
        geom_type_of_isPoint g0 (hAll g0 (List.mem_cons_self g0 rest))
      simp only [lnglat_columns, hgt, eq_self_iff_true, if_true, hlng, hlat]

/-- Evaluation of `add_point_wkbgeometry_column_to_df` when the lng/lat
block succeeds: the output frame carries the constructed geometry column
and its `wkb_geometry` image. -/
theorem add_point_eval {β : Type} (proj : Int → Int → Coord → Coord)
    (data : List β) (x y : List RawCell) (fc tc : Int) (G : List Geometry)
    (hG : G = (if fc = tc then
        List.zipWith points_from_xy_one (x.map to_numeric_coerce)
          (y.map to_numeric_coerce)
      else (List.zipWith points_from_xy_one (x.map to_numeric_coerce)
          (y.map to_numeric_coerce)).map (mapCoords (proj fc tc))))
    (lng lat : List (Option Int))
    (hl : lnglat_columns G = .ok (some lng, some lat)) :
    add_point_wkbgeometry_column_to_df proj data x y fc tc true
      = .ok ⟨data, G, some lng, some lat, G.map (wkb_lambda tc)⟩ := by
  unfold add_point_wkbgeometry_column_to_df
  by_cases h : fc = tc
  · rw [if_pos h] at hG
    subst h
    simp only [to_crs_geoms, if_pos rfl, if_true, ← hG, hl]
  · rw [if_neg h] at hG
    simp only [to_crs_geoms, if_neg h, if_true, ← hG, hl]

end TransformGeometry

namespace TransformGeometry

/-- Claim C6: `add_point_wkbgeometry_column_to_df` never raises on rows
whose x or y is non-numeric or missing: the call succeeds, the offending
row's geometry is the empty point and its `wkb_geometry` value is the
WKT element of the empty point, while rows with numeric x and y are
converted to ordinary (reprojected) points. -/
theorem bad_xy_rows_yield_empty_geometry_without_raising {β : Type}
    (proj : Int → Int → Coord → Coord) (data : List β) (x y : List RawCell)
    (from_crs to_crs : Int) (i : Nat) (hx : i < x.length) (hy : i < y.length) :
    ∃ out, add_point_wkbgeometry_column_to_df proj data x y from_crs to_crs true
        = .ok out ∧
      ∃ hg : i < out.geometry.length, ∃ hw : i < out.wkb_geometry.length,
        ((to_numeric_coerce (x[i]) = none ∨ to_numeric_coerce (y[i]) = none) →
          out.geometry[i] = Geometry.emptyPoint ∧
          out.wkb_geometry[i] = some ⟨Geometry.emptyPoint, to_crs⟩) ∧
        (∀ a b, to_numeric_coerce (x[i]) = some a →
          to_numeric_coerce (y[i]) = some b →
          out.geometry[i] =
            (if from_crs = to_crs then Geometry.point ⟨a, b, none⟩
             else Geometry.point (proj from_crs to_crs ⟨a, b, none⟩)) ∧
          out.wkb_geometry[i] = some ⟨out.geometry[i], to_crs⟩) := by
  have hAllpts : ∀ g ∈ List.zipWith points_from_xy_one (x.map to_numeric_coerce)
      (y.map to_numeric_coerce), isPointGeom g = true := zipWith_points_isPoint _ _
  have hplen : (List.zipWith points_from_xy_one (x.map to_numeric_coerce)
      (y.map to_numeric_coerce)).length = min x.length y.length := by
    simp [List.length_zipWith]
  have hip : i < (List.zipWith points_from_xy_one (x.map to_numeric_coerce)
      (y.map to_numeric_coerce)).length := by
    rw [hplen]; omega
  have hgi : (List.zipWith points_from_xy_one (x.map to_numeric_coerce)
      (y.map to_numeric_coerce))[i]
      = points_from_xy_one (to_numeric_coerce (x[i])) (to_numeric_coerce (y[i])) := by
    simp
  have hbadpt : (to_numeric_coerce (x[i]) = none ∨ to_numeric_coerce (y[i]) = none) →
      points_from_xy_one (to_numeric_coerce (x[i])) (to_numeric_coerce (y[i]))
        = Geometry.emptyPoint := by
    rintro (h | h) <;> rw [h]
    · cases to_numeric_coerce (y[i]) <;> rfl
    · cases to_numeric_coerce (x[i]) <;> rfl
  by_cases hc : from_crs = to_crs
  · have hipw : i < (List.map (wkb_lambda to_crs) (List.zipWith points_from_xy_one
        (x.map to_numeric_coerce) (y.map to_numeric_coerce))).length := by
      simpa using hip
    obtain ⟨lng, lat, hl⟩ := lnglat_columns_ok _ hAllpts
      (by intro h0; rw [h0] at hip; simp at hip)
    refine ⟨_, add_point_eval proj data x y from_crs to_crs _ (if_pos hc).symm lng lat hl,
      hip, hipw, ?_, ?_⟩
    · intro hbad
      constructor
      · rw [hgi]; exact hbadpt hbad
      · have hmap : (List.map (wkb_lambda to_crs) (List.zipWith points_from_xy_one
            (x.map to_numeric_coerce) (y.map to_numeric_coerce)))[i]
            = wkb_lambda to_crs ((List.zipWith points_from_xy_one
              (x.map to_numeric_coerce) (y.map to_numeric_coerce))[i]) := by
          simp
        rw [hmap, hgi, hbadpt hbad]; rfl
    · intro a b ha hb
      have hpt : (List.zipWith points_from_xy_one (x.map to_numeric_coerce)
          (y.map to_numeric_coerce))[i] = Geometry.point ⟨a, b, none⟩ := by
        rw [hgi, ha, hb]; rfl
      constructor
      · rw [hpt, if_pos hc]
      · have hmap : (List.map (wkb_lambda to_crs) (List.zipWith points_from_xy_one
            (x.map to_numeric_coerce) (y.map to_numeric_coerce)))[i]
            = wkb_lambda to_crs ((List.zipWith points_from_xy_one
              (x.map to_numeric_coerce) (y.map to_numeric_coerce))[i]) := by
          simp
        rw [hmap, hpt]; rfl
  · have hAllG : ∀ g ∈ (List.zipWith points_from_xy_one (x.map to_numeric_coerce)
        (y.map to_numeric_coerce)).map (mapCoords (proj from_crs to_crs)),
        isPointGeom g = true := by
      intro g hg
      rcases List.mem_map.mp hg with ⟨g', hg', rfl⟩
      exact mapCoords_isPoint _ _ (hAllpts g' hg')
    have hipG : i < ((List.zipWith points_from_xy_one (x.map to_numeric_coerce)
        (y.map to_numeric_coerce)).map (mapCoords (proj from_crs to_crs))).length := by
      simpa using hip
    have hipw : i < (List.map (wkb_lambda to_crs) ((List.zipWith points_from_xy_one
        (x.map to_numeric_coerce) (y.map to_numeric_coerce)).map
        (mapCoords (proj from_crs to_crs)))).length := by
      simpa using hip
    obtain ⟨lng, lat, hl⟩ := lnglat_columns_ok _ hAllG
      (by intro h0; rw [h0] at hipG; simp at hipG)
    refine ⟨_, add_point_eval proj data x y from_crs to_crs _ (if_neg hc).symm lng lat hl,
      hipG, hipw, ?_, ?_⟩
    · intro hbad
      have hGi : ((List.zipWith points_from_xy_one (x.map to_numeric_coerce)
          (y.map to_numeric_coerce)).map (mapCoords (proj from_crs to_crs)))[i]
          = Geometry.emptyPoint := by
        rw [List.getElem_map, hgi, hbadpt hbad]; rfl
      constructor
      · exact hGi
      · have hmap : (List.map (wkb_lambda to_crs) ((List.zipWith points_from_xy_one
            (x.map to_numeric_coerce) (y.map to_numeric_coerce)).map
            (mapCoords (proj from_crs to_crs))))[i]
            = wkb_lambda to_crs (((List.zipWith points_from_xy_one
              (x.map to_numeric_coerce) (y.map to_numeric_coerce)).map
              (mapCoords (proj from_crs to_crs)))[i]) := by
          simp
        rw [hmap, hGi]; rfl
    · intro a b ha hb
      have hGi : ((List.zipWith points_from_xy_one (x.map to_numeric_coerce)
          (y.map to_numeric_coerce)).map (mapCoords (proj from_crs to_crs)))[i]
          = Geometry.point (proj from_crs to_crs ⟨a, b, none⟩) := by
        rw [List.getElem_map, hgi, ha, hb]; rfl
      constructor
      · rw [hGi, if_neg hc]
      · have hmap : (List.map (wkb_lambda to_crs) ((List.zipWith points_from_xy_one
            (x.map to_numeric_coerce) (y.map to_numeric_coerce)).map
            (mapCoords (proj from_crs to_crs))))[i]
            = wkb_lambda to_crs (((List.zipWith points_from_xy_one
              (x.map to_numeric_coerce) (y.map to_numeric_coerce)).map
              (mapCoords (proj from_crs to_crs)))[i]) := by
          simp
        rw [hmap, hGi]; rfl

end TransformGeometry

namespace TransformGeometry

/-- Witness for C6 at the docstring's example shape: row 1 has a missing x
and an empty-string y, so its geometry is the empty point. -/
theorem bad_xy_rows_witness :
    (1 < ([RawCell.numVal 262403, RawCell.missing] : List RawCell).length) ∧
    (1 < ([RawCell.numVal 2779407, RawCell.strVal ""] : List RawCell).length) ∧
    (∃ out, add_point_wkbgeometry_column_to_df (fun _ _ c => c) ([1, 2] : List Nat)
        [RawCell.numVal 262403, RawCell.missing]
        [RawCell.numVal 2779407, RawCell.strVal ""] 3826 4326 true = .ok out ∧
      ∃ hg : 1 < out.geometry.length, ∃ hw : 1 < out.wkb_geometry.length,
        ((to_numeric_coerce (([RawCell.numVal 262403,
              RawCell.missing] : List RawCell)[1]) = none ∨
          to_numeric_coerce (([RawCell.numVal 2779407,
              RawCell.strVal ""] : List RawCell)[1]) = none) →
          out.geometry[1] = Geometry.emptyPoint ∧
          out.wkb_geometry[1] = some ⟨Geometry.emptyPoint, 4326⟩) ∧
        (∀ a b, to_numeric_coerce (([RawCell.numVal 262403,
              RawCell.missing] : List RawCell)[1]) = some a →
          to_numeric_coerce (([RawCell.numVal 2779407,
              RawCell.strVal ""] : List RawCell)[1]) = some b →
          out.geometry[1] =
            (if (3826 : Int) = 4326 then Geometry.point ⟨a, b, none⟩
             else Geometry.point ((fun _ _ c => c :
                Int → Int → Coord → Coord) 3826 4326 ⟨a, b, none⟩)) ∧
          out.wkb_geometry[1] = some ⟨out.geometry[1], 4326⟩)) :=
  ⟨by decide, by decide,
   bad_xy_rows_yield_empty_geometry_without_raising (fun _ _ c => c) ([1, 2] : List Nat)
     [RawCell.numVal 262403, RawCell.missing]
     [RawCell.numVal 2779407, RawCell.strVal ""] 3826 4326 1 (by decide) (by decide)⟩

end TransformGeometry
